import Mathlib

/-!
Shallow embedding of the auth9 QA race-test scripts and proofs of the
spec's testable properties over them.

Scripts embedded (one namespace per script):
- race_test_tenant.py          → RaceTestTenant
- scripts/qa/race_test.py      → RaceTest
- scripts/qa/race_test_simple.py → RaceTestSimple
- scripts/qa/full_race_test.py → FullRaceTest
- scripts/qa/tenant_race_test.py → TenantRaceTest
- scripts/qa/precise_race_test.py → PreciseRaceTest
- scripts/qa/grpc_race_test.py → GrpcRaceTest

Network i/o is modelled by the value the HTTP (or subprocess) library hands
back to the invoker: either a response (status code and body text) or a
raised exception. Floating-point latency fields are not modelled; no claim
depends on them.
-/

/-- An exception raised inside an HTTP call before (or while) a response is
obtained: connection refusal, client-side timeout, a body that fails to
parse, or any other transport-level error. In the Python scripts all of
these surface as a raised exception object. -/
inductive Failure where
  | connectionRefused
  | timeout
  | malformedBody
  | transport (msg : String)
deriving DecidableEq, Repr

/-- The text `str(e)` the scripts store for a caught exception. -/
def Failure.describe : Failure → String
  | .connectionRefused => "Connection refused"
  | .timeout => "Timeout"
  | .malformedBody => "Malformed body"
  | .transport m => m

/-- What the HTTP library call returns to the invoker: a response with a
status code and body text, or a raised exception. -/
inductive HttpResult where
  | ok (status : Nat) (body : String)
  | failed (f : Failure)
deriving DecidableEq, Repr

/-- The parameters an invoker passes to the HTTP library at its call site:
the target URL and the per-call timeout argument, `none` when the call
passes no timeout. -/
structure RequestCfg where
  url : String
  timeout : Option Nat
deriving DecidableEq, Repr

/-- Character-list prefix test used by the substring check below. -/
def leadsWith : List Char → List Char → Bool
  | [], _ => true
  | _ :: _, [] => false
  | a :: as, b :: bs => a == b && leadsWith as bs

/-- Substring occurrence over character lists. -/
def listHasSub (n : List Char) : List Char → Bool
  | [] => n.isEmpty
  | c :: rest => leadsWith n (c :: rest) || listHasSub n rest

/-- `needle in haystack` as Python evaluates it on response text. -/
def strContains (needle hay : String) : Bool :=
  listHasSub needle.data hay.data

namespace PreciseRaceTest

/-- Verdict counters of scripts/qa/precise_race_test.py: `success_count`
(201), `conflict_count` (409), `db_error_count` (500 with "1062" in the
body), `other_count` (everything else, including exceptions). -/
inductive Category where
  | success
  | conflict
  | dbError
  | other
deriving DecidableEq, Repr

/-- Call-site parameters of `RaceTest.create_tenant` (line 36):
`requests.post(url, headers=..., json=data, timeout=10)`. -/
def create_tenantCfg : RequestCfg :=
  { url := "http://localhost:8080/api/v1/tenants", timeout := some 10 }

/-- The counter one `create_tenant` call increments (lines 38-52): 201 →
success, 409 → conflict, 500 with "1062" in the text → db_error, any other
status → other; the `except` path also increments other. -/
def classify : HttpResult → Category
  | .ok s t =>
      if s == 201 then .success
      else if s == 409 then .conflict
      else if s == 500 && strContains "1062" t then .dbError
      else .other
  | .failed _ => .other

/-- The value `create_tenant` returns: `(response.status_code,
response.text)` on a response, `(0, str(e))` on an exception (lines 49,
53). -/
def create_tenant : HttpResult → Nat × String
  | .ok s t => (s, t)
  | .failed f => (0, f.describe)

/-- How many outcomes of a run land in a given counter. -/
def count (c : Category) (rs : List HttpResult) : Nat :=
  (rs.filter (fun r => classify r == c)).length

/-- `run_test`'s return value (line 107): `self.success_count == 1`. -/
def run_test (success_count : Nat) : Bool :=
  success_count == 1

/-- `__main__` (lines 148-153): `exit(0)` when `run_test` returned True,
`exit(1)` otherwise. -/
def mainExit (b : Bool) : Nat :=
  if b then 0 else 1

end PreciseRaceTest

/-- Modelled from the spec (§4.3): the Classifier contract as an ordered
list of (predicate over status/payload, Verdict) pairs, evaluated top to
bottom, first match wins, with a default Verdict for unmatched Outcomes.
Used only to compare the script's inlined if/elif chain against the spec's
rule-list formulation. -/
def specFirstMatch (rules : List ((Nat × String → Bool) × PreciseRaceTest.Category))
    (dflt : PreciseRaceTest.Category) (o : Nat × String) : PreciseRaceTest.Category :=
  match rules with
  | [] => dflt
  | (p, v) :: rest => if p o then v else specFirstMatch rest dflt o

/-- The rule list equivalent to precise_race_test.py's if/elif chain, in
source order. -/
def preciseRules : List ((Nat × String → Bool) × PreciseRaceTest.Category) :=
  [ (fun o => o.1 == 201, .success),
    (fun o => o.1 == 409, .conflict),
    (fun o => o.1 == 500 && strContains "1062" o.2, .dbError) ]

namespace RaceTest

/-- Call-site parameters of `reset` in scripts/qa/race_test.py (lines 7-8):
`session.post(url, json=...)` — no timeout argument is passed. -/
def resetCfg : RequestCfg :=
  { url := "http://localhost:8080/api/v1/auth/reset-password", timeout := none }

/-- `reset` (lines 6-9): there is no try/except, so on a response it
returns the status code and on an exception the exception propagates to the
caller (modelled as `Except.error`). -/
def reset : HttpResult → Except Failure Nat
  | .ok s _ => .ok s
  | .failed f => .error f

/-- `main` line 15: `success = results.count(200)`. -/
def successCount (results : List Nat) : Nat :=
  results.count 200

/-- The assertion on line 17 (`assert success <= 1`): the run survives the
assert exactly when at most one reset succeeded; otherwise an
AssertionError aborts it with the race-condition message. -/
def assertHolds (success : Nat) : Bool :=
  success ≤ 1

end RaceTest

namespace RaceTestTenant

/-- The result dictionary one `create_tenant` call in race_test_tenant.py
returns. The float `latency` field is not modelled. -/
structure Outcome where
  request_id : Nat
  status : Nat
  success : Bool
  payload : String
deriving DecidableEq, Repr

/-- Call-site parameters of `create_tenant` (line 22):
`session.post(url, headers=headers, json=data)` — aiohttp, no per-call
timeout argument. -/
def create_tenantCfg : RequestCfg :=
  { url := "http://localhost:8080/api/v1/tenants", timeout := none }

/-- The slug field of the JSON body `create_tenant` posts (line 17): the
literal "race-test-slug" for every request — the `slug_suffix` argument is
used only in the display name, never in the slug. -/
def requestSlug (slug_suffix : Nat) : String :=
  "race-test-slug"

/-- `create_tenant` (lines 20-41): on a response, a dict with the status,
`success = (status == 201)` and the parsed body; on any exception, a dict
with status 0, success False and `str(e)`. -/
def create_tenant (request_id : Nat) : HttpResult → Outcome
  | .ok s body => { request_id := request_id, status := s, success := s == 201, payload := body }
  | .failed f => { request_id := request_id, status := 0, success := false, payload := f.describe }

/-- `main` line 97: `success_count = sum(1 for r in results if r['success'])`. -/
def success_count (rs : List Outcome) : Nat :=
  (rs.filter (fun r => r.success)).length

/-- `main` line 98: `conflict_count = sum(1 for r in results if r['status'] == 409)`. -/
def conflict_count (rs : List Outcome) : Nat :=
  (rs.filter (fun r => r.status == 409)).length

/-- `main` line 99: `other_failure = len(results) - success_count - conflict_count`. -/
def other_failure (rs : List Outcome) : Nat :=
  rs.length - success_count rs - conflict_count rs

/-- `main` lines 71-77: if tenants with slug "race-test-slug" already exist
the script switches `test_slug` to "race-test-slug-new" (no cleanup, no
abort); otherwise it keeps "race-test-slug". The post-run probe (line 118)
queries this same `test_slug`. -/
def chooseTestSlug (existing_count : Nat) : String :=
  if existing_count > 0 then "race-test-slug-new" else "race-test-slug"

/-- The four-way safety assessment printed by `main` (lines 122-134), by
branch: more than one success → race-condition vulnerability; exactly one
success with exactly one persisted row → safe; zero successes with some
conflicts → all-conflict warning; anything else → the anomaly branch
quoting both counts. -/
inductive SafetyReport where
  | raceVuln (success final : Nat)
  | safeUnique
  | allConflict
  | anomaly (success final : Nat)
deriving DecidableEq, Repr

/-- `main` lines 122-134 as a function of `success_count`,
`conflict_count` and the probed `final_count`. -/
def assess (success conflict final : Nat) : SafetyReport :=
  if success > 1 then .raceVuln success final
  else if success == 1 && final == 1 then .safeUnique
  else if success == 0 && conflict > 0 then .allConflict
  else .anomaly success final

end RaceTestTenant

namespace TenantRaceTest

/-- Call-site parameters of `create_tenant` in
scripts/qa/tenant_race_test.py (line 26): `requests.post(url, headers=...,
json=data, timeout=10)`. -/
def create_tenantCfg : RequestCfg :=
  { url := "http://localhost:8080/api/v1/tenants", timeout := some 10 }

/-- `create_tenant` (lines 25-29): `(status_code, text)` on a response,
`(0, str(e))` on any exception. -/
def create_tenant : HttpResult → Nat × String
  | .ok s t => (s, t)
  | .failed f => (0, f.describe)

/-- The three-way judgment of `test_tenant_slug_race` (lines 95-103), by
branch: more than one success → race condition detected (return False);
exactly one success and nineteen conflicts → pass (return True); anything
else → unexpected (return False). -/
inductive Judgment where
  | raceDetected (n : Nat)
  | pass
  | unexpected (s c : Nat)
deriving DecidableEq, Repr

/-- Lines 95-103 as a function of the success and conflict counts. -/
def judge (success conflict : Nat) : Judgment :=
  if success > 1 then .raceDetected success
  else if success == 1 && conflict == 19 then .pass
  else .unexpected success conflict

/-- The boolean each branch returns. -/
def Judgment.toBool : Judgment → Bool
  | .pass => true
  | _ => false

/-- `test_tenant_slug_race`'s return value. -/
def test_tenant_slug_race (success conflict : Nat) : Bool :=
  (judge success conflict).toBool

/-- `__main__` (lines 105-107): `exit(0 if success else 1)`. -/
def exitCode (b : Bool) : Nat :=
  if b then 0 else 1

end TenantRaceTest

namespace FullRaceTest

/-- Call-site parameters of `reset_password` in
scripts/qa/full_race_test.py (lines 55-59): `requests.post(url, json=data,
timeout=5)`. -/
def reset_passwordCfg : RequestCfg :=
  { url := "http://localhost:8080/api/v1/auth/reset-password", timeout := some 5 }

/-- `reset_password` (lines 48-62): `(status_code, text)` on a response,
`(0, str(e))` on any exception. -/
def reset_password : HttpResult → Nat × String
  | .ok s t => (s, t)
  | .failed f => (0, f.describe)

/-- `test_concurrent_reset`'s judgment (lines 111-119): more than one
success → False, exactly one → True, zero → False ("No successful
resets"). The codomain is a plain boolean; no third value exists. -/
def test_concurrent_reset (success_count : Nat) : Bool :=
  if success_count > 1 then false
  else if success_count == 1 then true
  else false

/-- `__main__` (lines 121-123): `exit(0 if success else 1)`. -/
def mainExit (b : Bool) : Nat :=
  if b then 0 else 1

end FullRaceTest

namespace RaceTestSimple

/-- Call-site parameters of `reset_password` in
scripts/qa/race_test_simple.py (line 14): `requests.post(URL, json=data,
timeout=5)`. -/
def reset_passwordCfg : RequestCfg :=
  { url := "http://localhost:8080/api/v1/auth/reset-password", timeout := some 5 }

/-- `reset_password` (lines 8-17): `(status_code, text)` on a response,
`(0, str(e))` on any exception. -/
def reset_password : HttpResult → Nat × String
  | .ok s t => (s, t)
  | .failed f => (0, f.describe)

end RaceTestSimple

namespace GrpcRaceTest

/-- What `json.loads(result.stdout)` does with the grpcurl output in
scripts/qa/grpc_race_test.py: parses to an object containing
"accessToken", parses to one without it, or fails to parse. -/
inductive JsonBody where
  | withAccessToken (tok : String)
  | withoutAccessToken (raw : String)
  | unparsable (raw : String)
deriving DecidableEq, Repr

/-- What `subprocess.run(cmd, ..., timeout=10)` hands back to
`exchange_token`: a completed process with return code, stdout and stderr;
a TimeoutExpired; or any other exception. -/
inductive CallResult where
  | completed (returncode : Int) (stdout : JsonBody) (stderr : String)
  | timedOut
  | raised (msg : String)
deriving DecidableEq, Repr

/-- The per-call timeout `exchange_token` passes to `subprocess.run`
(line 30): 10 seconds. -/
def exchangeTimeout : Option Nat := some 10

/-- The result-type string `exchange_token` returns (lines 28-49):
return code 0 with an "accessToken" field → "success"; return code 0
parsed without that field → "error"; return code 0 with unparsable stdout
→ "success" (the bare `except` on line 41); nonzero return code →
"error"; TimeoutExpired → "timeout"; any other exception → "exception". -/
inductive ResultType where
  | success
  | error
  | timeout
  | exception
deriving DecidableEq, Repr

/-- `exchange_token`'s classification of one subprocess result. -/
def exchange_token : CallResult → ResultType
  | .completed rc out _ =>
      if rc == 0 then
        match out with
        | .withAccessToken _ => .success
        | .withoutAccessToken _ => .error
        | .unparsable _ => .success
      else .error
  | .timedOut => .timeout
  | .raised _ => .exception

/-- How many calls of a run land in a given counter (`run_exchange`
increments exactly one of success/error/timeout/exception per call,
under the lock). -/
def count (c : ResultType) (rs : List CallResult) : Nat :=
  (rs.filter (fun r => exchange_token r == c)).length

/-- `run_test`'s return value (line 156): `self.success_count > 0`. -/
def run_test (rs : List CallResult) : Bool :=
  decide (0 < count .success rs)

/-- `__main__` (lines 168-175): `exit(0)` when `run_test` returned a true
value, `exit(1)` otherwise. -/
def mainExit (b : Bool) : Nat :=
  if b then 0 else 1

end GrpcRaceTest

/-- Modelled from the spec (§4.4): the Evaluator's judgment codomain
`Pass | Fail | Inconclusive`, used only to compare the scripts' boolean
judgments (exit 0 / exit 1) against the spec's three-valued contract. -/
inductive SpecJudgment where
  | pass
  | fail
  | inconclusive
deriving DecidableEq, Repr

/-- How a script's boolean result surfaces as a judgment: True is Pass
(exit 0), False is Fail (exit 1); the scripts have no third value. -/
def codeJudgment (b : Bool) : SpecJudgment :=
  if b then .pass else .fail

/-- Partition helper: each outcome is filtered into exactly one of the four
precise_race_test counters, so the four counts sum to the run length. -/
theorem precise_count_partition (rs : List HttpResult) :
    PreciseRaceTest.count .success rs + PreciseRaceTest.count .conflict rs
      + PreciseRaceTest.count .dbError rs + PreciseRaceTest.count .other rs
      = rs.length := by
  induction rs with
  | nil => rfl
  | cons r rest ih =>
    simp only [PreciseRaceTest.count, List.filter_cons] at *
    cases h : PreciseRaceTest.classify r <;> simp [h] <;> omega

/-- Partition helper: each subprocess result is filtered into exactly one
of the four grpc_race_test counters, so the four counts sum to the run
length. -/
theorem grpc_count_partition (gs : List GrpcRaceTest.CallResult) :
    GrpcRaceTest.count .success gs + GrpcRaceTest.count .error gs
      + GrpcRaceTest.count .timeout gs + GrpcRaceTest.count .exception gs
      = gs.length := by
  induction gs with
  | nil => rfl
  | cons g rest ih =>
    simp only [GrpcRaceTest.count, List.filter_cons] at *
    cases h : GrpcRaceTest.exchange_token g <;> simp [h] <;> omega

/-- C1: every run's outcomes are partitioned by the verdict counters —
each outcome is classified under exactly one category, the four counts sum
to the number of outcomes (for any run, HTTP or gRPC), and timeouts and
transport exceptions are counted in a failure category, never dropped (in
grpc_race_test they are counted under their own timeout and exception
counters). -/
theorem c1_verdicts_partition_outcomes (rs : List HttpResult)
    (gs : List GrpcRaceTest.CallResult) :
    (PreciseRaceTest.count .success rs + PreciseRaceTest.count .conflict rs
      + PreciseRaceTest.count .dbError rs + PreciseRaceTest.count .other rs
      = rs.length)
    ∧ (∀ r : HttpResult, ∃! c : PreciseRaceTest.Category, PreciseRaceTest.classify r = c)
    ∧ (∀ f : Failure, PreciseRaceTest.classify (.failed f) = .other)
    ∧ (GrpcRaceTest.count .success gs + GrpcRaceTest.count .error gs
        + GrpcRaceTest.count .timeout gs + GrpcRaceTest.count .exception gs
        = gs.length)
    ∧ GrpcRaceTest.exchange_token .timedOut = .timeout
    ∧ (∀ m : String, GrpcRaceTest.exchange_token (.raised m) = .exception) := by
  refine ⟨precise_count_partition rs, ?_, fun f => rfl,
    grpc_count_partition gs, rfl, fun m => rfl⟩
  intro r
  exact ⟨PreciseRaceTest.classify r, rfl, fun c h => h.symm⟩

/-- C2 counterexample: with zero successes (hence zero conflicts relevant —
the judgments read only the success count) the scripts' evaluators return
False, which surfaces as Fail (exit code 1), not as Inconclusive: no
Inconclusive value exists in the code's boolean judgment. -/
theorem c2_counterexample :
    codeJudgment (FullRaceTest.test_concurrent_reset 0) = .fail
    ∧ codeJudgment (FullRaceTest.test_concurrent_reset 0) ≠ .inconclusive
    ∧ FullRaceTest.mainExit (FullRaceTest.test_concurrent_reset 0) = 1
    ∧ codeJudgment (PreciseRaceTest.run_test 0) = .fail
    ∧ codeJudgment (PreciseRaceTest.run_test 0) ≠ .inconclusive := by
  decide

/-- C2 amended: when the success count is zero the evaluators of
full_race_test and precise_race_test return False — reported as Fail via
exit code 1 — and never Pass; the code has no Inconclusive judgment. -/
theorem c2_zero_success_never_pass (s : Nat) (h : s = 0) :
    FullRaceTest.test_concurrent_reset s = false
    ∧ FullRaceTest.mainExit (FullRaceTest.test_concurrent_reset s) = 1
    ∧ PreciseRaceTest.run_test s = false
    ∧ PreciseRaceTest.mainExit (PreciseRaceTest.run_test s) = 1
    ∧ codeJudgment (FullRaceTest.test_concurrent_reset s) ≠ .pass := by
  subst h; decide

/-- C2 witness: the amended statement at the concrete run with zero
successes. -/
theorem c2_zero_success_never_pass_witness :
    FullRaceTest.test_concurrent_reset 0 = false
    ∧ FullRaceTest.mainExit (FullRaceTest.test_concurrent_reset 0) = 1
    ∧ PreciseRaceTest.run_test 0 = false
    ∧ PreciseRaceTest.mainExit (PreciseRaceTest.run_test 0) = 1
    ∧ codeJudgment (FullRaceTest.test_concurrent_reset 0) ≠ .pass :=
  c2_zero_success_never_pass 0 rfl

/-- C3: whenever more than one success is observed, tenant_race_test's
judgment is the race-detected (multiplicity-violation) branch — returning
False, hence exit code 1 — and race_test.py's `assert success <= 1` fails,
aborting the run with its race-condition message. -/
theorem c3_multiplicity_violation (s c : Nat) (h : 1 < s) :
    TenantRaceTest.judge s c = .raceDetected s
    ∧ TenantRaceTest.test_tenant_slug_race s c = false
    ∧ TenantRaceTest.exitCode (TenantRaceTest.test_tenant_slug_race s c) = 1
    ∧ RaceTest.assertHolds s = false := by
  have hj : TenantRaceTest.judge s c = .raceDetected s := by
    simp [TenantRaceTest.judge, h]
  refine ⟨hj, ?_, ?_, ?_⟩
  · simp [TenantRaceTest.test_tenant_slug_race, hj, TenantRaceTest.Judgment.toBool]
  · simp [TenantRaceTest.test_tenant_slug_race, hj, TenantRaceTest.Judgment.toBool,
      TenantRaceTest.exitCode]
  · simp [RaceTest.assertHolds]; omega

/-- C3 witness: the multiplicity statement at the concrete run with 3
successes out of 20 (17 conflicts). -/
theorem c3_multiplicity_violation_witness :
    TenantRaceTest.judge 3 17 = .raceDetected 3
    ∧ TenantRaceTest.test_tenant_slug_race 3 17 = false
    ∧ TenantRaceTest.exitCode (TenantRaceTest.test_tenant_slug_race 3 17) = 1
    ∧ RaceTest.assertHolds 3 = false :=
  c3_multiplicity_violation 3 17 (by decide)

/-- C4: with one observed success but a probed ground-truth count of 2,
race_test_tenant's assessment lands in the anomaly branch quoting both
counts — distinct from the race-condition (multiplicity) branch and from
the safe branch — for any conflict count. -/
theorem c4_ground_truth_mismatch (c : Nat) :
    RaceTestTenant.assess 1 c 2 = .anomaly 1 2
    ∧ RaceTestTenant.assess 1 c 2 ≠ .raceVuln 1 2
    ∧ RaceTestTenant.assess 1 c 2 ≠ .safeUnique := by
  have h : RaceTestTenant.assess 1 c 2 = .anomaly 1 2 := by
    simp [RaceTestTenant.assess]
  exact ⟨h, by simp [h], by simp [h]⟩

/-- C5 counterexample: race_test.py's `reset` has no try/except — on a
transport-level exception (here a connection refusal) the exception
propagates past the invoker's boundary instead of being converted into an
Outcome. -/
theorem c5_counterexample :
    RaceTest.reset (.failed .connectionRefused)
      = Except.error Failure.connectionRefused := rfl

/-- C5 amended: every invoker except race_test.py's `reset` catches all
failure modes and converts them into a structured result carrying the
failure-classifier key (status 0 with the exception text for the HTTP
scripts; the exception or timeout key for the gRPC script). -/
theorem c5_invokers_catch_failures (f : Failure) (i : Nat) (m : String) :
    TenantRaceTest.create_tenant (.failed f) = (0, f.describe)
    ∧ PreciseRaceTest.create_tenant (.failed f) = (0, f.describe)
    ∧ FullRaceTest.reset_password (.failed f) = (0, f.describe)
    ∧ RaceTestSimple.reset_password (.failed f) = (0, f.describe)
    ∧ (RaceTestTenant.create_tenant i (.failed f)).status = 0
    ∧ (RaceTestTenant.create_tenant i (.failed f)).success = false
    ∧ GrpcRaceTest.exchange_token (.raised m) = .exception
    ∧ GrpcRaceTest.exchange_token .timedOut = .timeout :=
  ⟨rfl, rfl, rfl, rfl, rfl, rfl, rfl, rfl⟩

/-- C6 counterexample: the aiohttp invokers pass no per-call timeout at
all — `reset` in race_test.py and `create_tenant` in race_test_tenant.py
call `session.post` without a timeout argument. -/
theorem c6_counterexample :
    RaceTest.resetCfg.timeout = none
    ∧ RaceTestTenant.create_tenantCfg.timeout = none :=
  ⟨rfl, rfl⟩

/-- C6 amended: the requests-based invokers and the gRPC subprocess
invoker pass explicit per-call timeouts (10s, 10s, 5s, 5s, 10s), and only
the gRPC invoker resolves a hung call to a distinct timeout classifier
key — the requests-based invokers fold a timeout exception into the
generic failure key 0; the aiohttp invokers pass no per-call timeout. -/
theorem c6_per_call_timeouts :
    TenantRaceTest.create_tenantCfg.timeout = some 10
    ∧ PreciseRaceTest.create_tenantCfg.timeout = some 10
    ∧ FullRaceTest.reset_passwordCfg.timeout = some 5
    ∧ RaceTestSimple.reset_passwordCfg.timeout = some 5
    ∧ GrpcRaceTest.exchangeTimeout = some 10
    ∧ GrpcRaceTest.exchange_token .timedOut = .timeout
    ∧ TenantRaceTest.create_tenant (.failed .timeout) = (0, "Timeout")
    ∧ RaceTest.resetCfg.timeout = none :=
  ⟨rfl, rfl, rfl, rfl, rfl, rfl, rfl, rfl⟩

/-- C7: precise_race_test's if/elif chain is exactly first-match
evaluation of the ordered rule list (201 → success, 409 → conflict, 500
with "1062" → dbError) with default other; an outcome matching no rule is
classified other (the UnexpectedError bucket), never success and never
conflict. -/
theorem c7_first_match_classifier (s : Nat) (t : String) :
    PreciseRaceTest.classify (.ok s t) = specFirstMatch preciseRules .other (s, t)
    ∧ (s ≠ 201 → s ≠ 409 → ¬(s = 500 ∧ strContains "1062" t = true) →
        PreciseRaceTest.classify (.ok s t) = .other
        ∧ PreciseRaceTest.classify (.ok s t) ≠ .success
        ∧ PreciseRaceTest.classify (.ok s t) ≠ .conflict) := by
  constructor
  · rfl
  · intro h1 h2 h3
    have e1 : (s == 201) = false := by simp [h1]
    have e2 : (s == 409) = false := by simp [h2]
    have e3 : (s == 500 && strContains "1062" t) = false := by
      rcases Bool.eq_false_or_eq_true (strContains "1062" t) with hc | hc
      · have hs : ¬ s = 500 := fun hs => h3 ⟨hs, hc⟩
        simp [hs]
      · simp [hc]
    refine ⟨?_, ?_, ?_⟩ <;>
      simp [PreciseRaceTest.classify, e1, e2, e3]

/-- C7 witness: the unmatched-status case at the concrete outcome
(503, "x"). -/
theorem c7_first_match_classifier_witness :
    PreciseRaceTest.classify (.ok 503 "x") = .other
    ∧ PreciseRaceTest.classify (.ok 503 "x") ≠ .success
    ∧ PreciseRaceTest.classify (.ok 503 "x") ≠ .conflict :=
  (c7_first_match_classifier 503 "x").2 (by decide) (by decide) (by decide)

/-- C8 (code bug): with a leftover tenant already holding the contended
slug (existing_count = 1), race_test_tenant.py switches its `test_slug` to
"race-test-slug-new" and probes that key after the run — but
`create_tenant` still posts the hardcoded slug "race-test-slug", so the
burst is dispatched against the dirty key and the post-run probe queries a
key the burst never touched. On a clean start (existing_count = 0) the two
keys agree. -/
theorem c8_dirty_state_bug :
    RaceTestTenant.chooseTestSlug 1 = "race-test-slug-new"
    ∧ RaceTestTenant.requestSlug 5 = "race-test-slug"
    ∧ RaceTestTenant.requestSlug 5 ≠ RaceTestTenant.chooseTestSlug 1
    ∧ RaceTestTenant.chooseTestSlug 0 = "race-test-slug"
    ∧ RaceTestTenant.requestSlug 5 = RaceTestTenant.chooseTestSlug 0 := by
  refine ⟨rfl, rfl, ?_, rfl, rfl⟩
  decide

/-- C9: with exactly 1 success and 19 conflicts out of N=20,
tenant_race_test's judgment is the pass branch, the script returns True
and exits with code 0. -/
theorem c9_at_most_once_pass :
    TenantRaceTest.judge 1 19 = .pass
    ∧ TenantRaceTest.test_tenant_slug_race 1 19 = true
    ∧ TenantRaceTest.exitCode (TenantRaceTest.test_tenant_slug_race 1 19) = 0 := by
  decide

/-- C10: grpc_race_test judges a run successful exactly when at least one
exchange succeeded; in particular two or more successes still judge
successful (no at-most-once invariant), and a successful judgment exits
with code 0. -/
theorem c10_grpc_any_success (rs : List GrpcRaceTest.CallResult) :
    (GrpcRaceTest.run_test rs = true ↔ 1 ≤ GrpcRaceTest.count .success rs)
    ∧ (2 ≤ GrpcRaceTest.count .success rs → GrpcRaceTest.run_test rs = true)
    ∧ (GrpcRaceTest.run_test rs = true →
        GrpcRaceTest.mainExit (GrpcRaceTest.run_test rs) = 0) := by
  refine ⟨?_, ?_, ?_⟩
  · simp [GrpcRaceTest.run_test]
    omega
  · intro h
    simp [GrpcRaceTest.run_test]
    omega
  · intro h
    simp [GrpcRaceTest.mainExit, h]

/-- C10 witness: a run with two successful exchanges and one timeout is
judged successful. -/
theorem c10_grpc_any_success_witness :
    GrpcRaceTest.run_test
      [GrpcRaceTest.CallResult.completed 0 (.withAccessToken "t") "",
       GrpcRaceTest.CallResult.completed 0 (.withAccessToken "t") "",
       GrpcRaceTest.CallResult.timedOut] = true :=
  (c10_grpc_any_success
      [GrpcRaceTest.CallResult.completed 0 (.withAccessToken "t") "",
       GrpcRaceTest.CallResult.completed 0 (.withAccessToken "t") "",
       GrpcRaceTest.CallResult.timedOut]).2.1 (by decide)
